import Mathlib

/-!
Verification of the viewerkit file-synchronization engine against its
natural-language specification.

The definitions below are shallow embeddings of the TypeScript sources:

- the view-side FileWatcher / ConflictResolver / MessageHandler trio
  (packages/viewerkit-core/src/core/fileWatcher.ts and conflictResolver.ts),
  modelled as a state machine with an explicit step function and a list of
  emitted effects per step;
- the host-side HotReloadWatcher (src/features/hotReload/host.ts), with its
  internal-write tag set, event debouncing, and glob-to-regex ignore matching;
- the host-side AutosaveManager (archive/sdk-original: performSave and
  createBackup) and the WebAutosaveManager scheduling logic
  (src/features/autosave/web.ts).

Timers (the 200 ms pending-save clear, the 1000 ms editing-idle window, the
debounce and expiry timers) are modelled as explicit events that may fire at
any point of a trace, which over-approximates the real schedules.
-/

namespace Viewerkit

/-- Conflict resolution marker, mirroring the literal union
'none' | 'external' | 'local' used by the view-side state. -/
inductive ConflictRes where
  | noneRes
  | external
  | localRes
deriving DecidableEq

/-- ConflictState from conflictResolver.ts: the data handed to the UI when a
conflict is detected, and stored as the resolver's currentConflict. -/
structure ConflictState where
  resolution : ConflictRes
  externalContent : String
  localContent : String
deriving DecidableEq

/-- User choice passed to ConflictResolver.resolveConflict. -/
inductive ConflictAction where
  | keepLocal
  | acceptExternal
deriving DecidableEq

/-- Combined state of the view-side FileWatcher (fileWatcher.ts): the public
FileState fields plus the tracking refs and the ConflictResolver's
currentConflict. -/
structure FWState where
  filePath : String
  data : String
  error : Option String
  hasUnsavedChanges : Bool
  lastSavedContent : String
  conflictResolution : ConflictRes
  isUserEditingRef : Bool
  isInitializedRef : Bool
  pendingSaveRef : Option String
  lastWebviewSaveRef : String
  lastSavedContentRef : String
  lastExternalUpdateRef : String
  currentConflict : Option ConflictState
deriving DecidableEq

/-- Initial state built by the FileWatcher constructor. -/
def initFW : FWState where
  filePath := ""
  data := ""
  error := none
  hasUnsavedChanges := false
  lastSavedContent := ""
  conflictResolution := ConflictRes.noneRes
  isUserEditingRef := false
  isInitializedRef := false
  pendingSaveRef := none
  lastWebviewSaveRef := ""
  lastSavedContentRef := ""
  lastExternalUpdateRef := ""
  currentConflict := none

/-- Observable effects of one state-machine step: the onStateChange callback,
the onConflictDetected callback to the UI, a debounced autosave being
scheduled, and a save request being sent to the host. -/
inductive FWEffect where
  | stateChange
  | conflictDetected (resolution : ConflictRes) (externalContent localContent : String)
  | scheduleAutosave (content : String)
  | sendSaveRequest (content filePath : String)
deriving DecidableEq

/-- Inputs processed by the view-side machine.  updateContent and
resolveConflict come from the UI, hostUpdate and errorEvent from the
MessageHandler; saveContent is the manual save entry point (also invoked by
the autosave debouncer); clearPendingSave and editingTimeout are the 200 ms
and 1000 ms timeouts firing. -/
inductive FWEvent where
  | updateContent (newContent : String)
  | hostUpdate (content filePath : String)
  | saveContent (content : Option String)
  | clearPendingSave
  | editingTimeout
  | resolveConflict (action : ConflictAction)
  | errorEvent (message : String)

/-- FileWatcher.handleConflictResolved: applies the chosen content, updating
last-saved tracking only when the external side won. -/
def handleConflictResolved (s : FWState) (content : String) (wasExternal : Bool) :
    FWState × List FWEffect :=
  let s1 := { s with
    data := content
    lastSavedContent := if wasExternal then content else s.lastSavedContent
    hasUnsavedChanges :=
      if wasExternal then false else decide (content ≠ s.lastSavedContentRef)
    conflictResolution := ConflictRes.noneRes }
  let s2 :=
    if wasExternal then
      { s1 with lastSavedContentRef := content, lastExternalUpdateRef := content }
    else s1
  (s2, [FWEffect.stateChange])

/-- FileWatcher.handleConflictDetected: records the resolution marker and
notifies the UI. -/
def handleConflictDetected (s : FWState) (c : ConflictState) : FWState × List FWEffect :=
  ({ s with conflictResolution := c.resolution },
   [FWEffect.stateChange,
    FWEffect.conflictDetected c.resolution c.externalContent c.localContent])

/-- ConflictResolver.checkForConflict, with the FileWatcher callbacks
inlined.  The branch order is exactly the source's: content equality, then
unsaved changes, then not-editing in-place application, then deferral. -/
def checkForConflict (s : FWState) (localContent externalContent : String)
    (hasUnsavedChanges isUserEditing : Bool) : FWState × List FWEffect :=
  if localContent = externalContent then (s, [])
  else if hasUnsavedChanges then
    let cs : ConflictState :=
      { resolution := ConflictRes.external
        externalContent := externalContent
        localContent := localContent }
    handleConflictDetected { s with currentConflict := some cs } cs
  else if isUserEditing = false then
    handleConflictResolved s externalContent true
  else
    let deferred : ConflictState := ⟨ConflictRes.noneRes, externalContent, localContent⟩
    ({ s with currentConflict := some deferred }, [])

/-- ConflictResolver.resolveConflict: applies the user choice to the stored
conflict, then clears it; a missing conflict is a no-op. -/
def resolveConflictStep (s : FWState) (action : ConflictAction) : FWState × List FWEffect :=
  match s.currentConflict with
  | none => (s, [])
  | some cc =>
    let r :=
      match action with
      | ConflictAction.acceptExternal => handleConflictResolved s cc.externalContent true
      | ConflictAction.keepLocal => handleConflictResolved s cc.localContent false
    ({ r.1 with currentConflict := none }, r.2)

/-- FileWatcher.scheduleAutosave guards: the debounced save is only scheduled
when initialized, with nonempty content and path, content differing from the
last saved content, and no pending save of the same content. -/
def scheduleAutosaveEffects (s : FWState) (content : String) : List FWEffect :=
  if s.isInitializedRef = false ∨ content = "" ∨ s.filePath = "" then []
  else if content = s.lastSavedContentRef then []
  else if s.pendingSaveRef = some content then []
  else [FWEffect.scheduleAutosave content]

/-- FileWatcher.updateContent: the user-edit entry point. -/
def updateContent (s : FWState) (newContent : String) : FWState × List FWEffect :=
  if newContent = s.data then (s, [])
  else
    let s1 := { s with
      data := newContent
      hasUnsavedChanges := decide (newContent ≠ s.lastSavedContentRef) }
    let s2 := { s1 with isUserEditingRef := true }
    if newContent ≠ s.lastSavedContentRef then
      (s2, FWEffect.stateChange :: scheduleAutosaveEffects s2 newContent)
    else
      (s2, [FWEffect.stateChange])

/-- FileWatcher.saveContent: records the outgoing save in both tracking refs
and sends the save request; an absent or empty argument falls back to the
current buffer (the source tests truthiness of the argument). -/
def saveContent (s : FWState) (content : Option String) : FWState × List FWEffect :=
  let contentToSave :=
    match content with
    | some c => if c = "" then s.data else c
    | none => s.data
  ({ s with lastWebviewSaveRef := contentToSave, pendingSaveRef := some contentToSave },
   [FWEffect.sendSaveRequest contentToSave s.filePath])

/-- FileWatcher.handleFileUpdate: initial load, echo of our own save
(detected by equality with lastWebviewSaveRef), or genuine external change
routed to the conflict check. -/
def handleFileUpdate (s : FWState) (content filePath : String) : FWState × List FWEffect :=
  let currentContent := s.data
  if s.isInitializedRef = false ∨ s.filePath = "" ∨ filePath ≠ s.filePath then
    let s1 := { s with
      data := content
      filePath := filePath
      lastSavedContent := content
      hasUnsavedChanges := false
      error := none
      conflictResolution := ConflictRes.noneRes }
    ({ s1 with
        lastSavedContentRef := content
        lastExternalUpdateRef := content
        lastWebviewSaveRef := content
        isInitializedRef := true },
     [FWEffect.stateChange])
  else if content = s.lastWebviewSaveRef then
    let s1 := { s with
      lastSavedContent := content
      hasUnsavedChanges := decide (currentContent ≠ content) }
    ({ s1 with lastSavedContentRef := content, lastExternalUpdateRef := content },
     [FWEffect.stateChange])
  else
    checkForConflict s currentContent content s.hasUnsavedChanges s.isUserEditingRef

/-- FileWatcher.handleError: records the error string. -/
def handleError (s : FWState) (message : String) : FWState × List FWEffect :=
  ({ s with error := some message }, [FWEffect.stateChange])

/-- One transition of the view-side machine. -/
def fwStep (s : FWState) : FWEvent → FWState × List FWEffect
  | FWEvent.updateContent c => updateContent s c
  | FWEvent.hostUpdate c p => handleFileUpdate s c p
  | FWEvent.saveContent c => saveContent s c
  | FWEvent.clearPendingSave => ({ s with pendingSaveRef := none }, [])
  | FWEvent.editingTimeout => ({ s with isUserEditingRef := false }, [])
  | FWEvent.resolveConflict a => resolveConflictStep s a
  | FWEvent.errorEvent e => handleError s e

/-- State reached by running a trace of events from the constructor state. -/
def fwRun (events : List FWEvent) : FWState :=
  events.foldl (fun s e => (fwStep s e).1) initFW

/-- The dirty invariant together with the auxiliary fact that the
lastSavedContent state field and the lastSavedContentRef ref always agree. -/
def dirtyInv (s : FWState) : Prop :=
  s.hasUnsavedChanges = decide (s.data ≠ s.lastSavedContent) ∧
    s.lastSavedContent = s.lastSavedContentRef

theorem dirtyInv_init : dirtyInv initFW := by
  constructor <;> rfl

theorem dirtyInv_step (s : FWState) (e : FWEvent) (h : dirtyInv s) :
    dirtyInv (fwStep s e).1 := by
  obtain ⟨h1, h2⟩ := h
  cases e with
  | updateContent c =>
    simp only [fwStep, updateContent]
    split
    · exact ⟨h1, h2⟩
    · split <;> exact ⟨by simp [h2], h2⟩
  | hostUpdate c p =>
    simp only [fwStep, handleFileUpdate]
    split
    · exact ⟨by simp, rfl⟩
    · split
      · exact ⟨rfl, rfl⟩
      · simp only [checkForConflict]
        split
        · exact ⟨h1, h2⟩
        · split
          · exact ⟨h1, h2⟩
          · split
            · exact ⟨by simp [handleConflictResolved], by simp [handleConflictResolved]⟩
            · exact ⟨h1, h2⟩
  | saveContent c =>
    exact ⟨h1, h2⟩
  | clearPendingSave =>
    exact ⟨h1, h2⟩
  | editingTimeout =>
    exact ⟨h1, h2⟩
  | resolveConflict a =>
    simp only [fwStep, resolveConflictStep]
    cases hc : s.currentConflict with
    | none => exact ⟨h1, h2⟩
    | some cc =>
      cases a with
      | keepLocal =>
        exact ⟨by simp [handleConflictResolved, h2], by simp [handleConflictResolved, h2]⟩
      | acceptExternal =>
        exact ⟨by simp [handleConflictResolved], by simp [handleConflictResolved]⟩
  | errorEvent msg =>
    exact ⟨h1, h2⟩

theorem dirtyInv_run (events : List FWEvent) : dirtyInv (fwRun events) := by
  suffices h : ∀ s, dirtyInv s → dirtyInv (events.foldl (fun s e => (fwStep s e).1) s) by
    exact h initFW dirtyInv_init
  induction events with
  | nil => intro s hs; exact hs
  | cons e es ih =>
    intro s hs
    exact ih ((fwStep s e).1) (dirtyInv_step s e hs)

/-- C5: after every state transition of the view-side session, the dirty flag
(hasUnsavedChanges) is true exactly when the buffer differs from the most
recently persisted content (lastSavedContent). -/
theorem dirty_iff_buffer_ne_lastSaved (events : List FWEvent) :
    (fwRun events).hasUnsavedChanges = true ↔
      (fwRun events).data ≠ (fwRun events).lastSavedContent := by
  have h := (dirtyInv_run events).1
  rw [h]
  simp

/-- C10: a user edit whose content equals the current buffer is a complete
no-op: the state is unchanged and no effect (state-change callback, editing
flag, autosave scheduling) is produced. -/
theorem updateContent_same_content_noop (s : FWState) :
    fwStep s (FWEvent.updateContent s.data) = (s, []) := by
  simp [fwStep, updateContent]

/-- Trace for the C1 counterexample: a save of "x" is submitted before the
session is initialized, then the initial load brings "y". -/
def c1Trace : List FWEvent :=
  [FWEvent.saveContent (some "x"), FWEvent.hostUpdate "y" "p"]

/-- C1 counterexample: in the state reached by c1Trace the pending save is
"x" and the buffer is "y"; a host update carrying exactly the pending save
"x" nevertheless overwrites the buffer, because the code detects echoes via
lastWebviewSaveRef (here "y"), not via pendingSaveRef. -/
theorem hostUpdate_eq_pendingSave_clobbers_buffer :
    (fwRun c1Trace).pendingSaveRef = some "x" ∧
    (fwRun c1Trace).data = "y" ∧
    (fwStep (fwRun c1Trace) (FWEvent.hostUpdate "x" "p")).1.data = "x" := by
  decide

/-- C1 amended: on an initialized session with matching nonempty path, a host
update whose content equals lastWebviewSaveRef (the content this view last
saved or loaded) never overwrites the buffer; only lastSavedContent,
lastSavedContentRef, lastExternalUpdateRef and the dirty flag are updated,
and the only effect is the state-change callback. -/
theorem echo_update_preserves_buffer (s : FWState) (c p : String)
    (hinit : s.isInitializedRef = true) (hp : s.filePath = p) (hne : p ≠ "")
    (hecho : c = s.lastWebviewSaveRef) :
    (fwStep s (FWEvent.hostUpdate c p)).1.data = s.data ∧
    (fwStep s (FWEvent.hostUpdate c p)).1.lastSavedContent = c ∧
    (fwStep s (FWEvent.hostUpdate c p)).1.lastSavedContentRef = c ∧
    (fwStep s (FWEvent.hostUpdate c p)).1.lastExternalUpdateRef = c ∧
    (fwStep s (FWEvent.hostUpdate c p)).1.hasUnsavedChanges = decide (s.data ≠ c) ∧
    (fwStep s (FWEvent.hostUpdate c p)).1.pendingSaveRef = s.pendingSaveRef ∧
    (fwStep s (FWEvent.hostUpdate c p)).2 = [FWEffect.stateChange] := by
  subst hp
  simp [fwStep, handleFileUpdate, hinit, hne, hecho]

theorem echo_update_preserves_buffer_witness :
    (fwStep (fwRun [FWEvent.hostUpdate "a" "p"]) (FWEvent.hostUpdate "a" "p")).1.data
        = (fwRun [FWEvent.hostUpdate "a" "p"]).data ∧
    (fwStep (fwRun [FWEvent.hostUpdate "a" "p"]) (FWEvent.hostUpdate "a" "p")).1.lastSavedContent = "a" ∧
    (fwStep (fwRun [FWEvent.hostUpdate "a" "p"]) (FWEvent.hostUpdate "a" "p")).1.lastSavedContentRef = "a" ∧
    (fwStep (fwRun [FWEvent.hostUpdate "a" "p"]) (FWEvent.hostUpdate "a" "p")).1.lastExternalUpdateRef = "a" ∧
    (fwStep (fwRun [FWEvent.hostUpdate "a" "p"]) (FWEvent.hostUpdate "a" "p")).1.hasUnsavedChanges
        = decide ((fwRun [FWEvent.hostUpdate "a" "p"]).data ≠ "a") ∧
    (fwStep (fwRun [FWEvent.hostUpdate "a" "p"]) (FWEvent.hostUpdate "a" "p")).1.pendingSaveRef
        = (fwRun [FWEvent.hostUpdate "a" "p"]).pendingSaveRef ∧
    (fwStep (fwRun [FWEvent.hostUpdate "a" "p"]) (FWEvent.hostUpdate "a" "p")).2
        = [FWEffect.stateChange] :=
  echo_update_preserves_buffer (fwRun [FWEvent.hostUpdate "a" "p"]) "a" "p"
    (by decide) (by decide) (by decide) (by decide)

/-- Trace for the C3 counterexample: initial load "base", then a user edit to
"loc", which sets both the dirty flag and the user-editing flag. -/
def c3Trace : List FWEvent :=
  [FWEvent.hostUpdate "base" "p", FWEvent.updateContent "loc"]

/-- C3 counterexample: while the user-editing window is active and the
session has unsaved changes, an external host update with differing content
does emit a conflict-detected event, contradicting the claim that no
conflict is presented during the editing window regardless of unsaved
changes. -/
theorem conflict_presented_while_editing :
    (fwRun c3Trace).isUserEditingRef = true ∧
    (fwRun c3Trace).hasUnsavedChanges = true ∧
    (fwStep (fwRun c3Trace) (FWEvent.hostUpdate "ext" "p")).2 =
      [FWEffect.stateChange,
       FWEffect.conflictDetected ConflictRes.external "ext" "loc"] := by
  decide

/-- C3 amended: during the user-editing window, an external host update is
deferred and no conflict-detected event is emitted provided the session has
no unsaved changes; the buffer is untouched, and a genuinely differing
external content is stored as a deferred conflict. -/
theorem no_conflict_while_editing_clean (s : FWState) (c p : String)
    (hinit : s.isInitializedRef = true) (hp : s.filePath = p) (hne : p ≠ "")
    (hedit : s.isUserEditingRef = true) (hclean : s.hasUnsavedChanges = false) :
    (∀ r e l, FWEffect.conflictDetected r e l ∉ (fwStep s (FWEvent.hostUpdate c p)).2) ∧
    (fwStep s (FWEvent.hostUpdate c p)).1.data = s.data ∧
    (c ≠ s.lastWebviewSaveRef → c ≠ s.data →
      (fwStep s (FWEvent.hostUpdate c p)).1.currentConflict =
        some ⟨ConflictRes.noneRes, c, s.data⟩) := by
  subst hp
  by_cases hech : c = s.lastWebviewSaveRef
  · simp [fwStep, handleFileUpdate, hinit, hne, hech]
  · by_cases hsame : s.data = c
    · simp [fwStep, handleFileUpdate, checkForConflict, hinit, hne, hech, hedit, hclean, hsame]
    · simp [fwStep, handleFileUpdate, checkForConflict, hinit, hne, hech, hedit, hclean, hsame,
        Ne.symm hsame]

/-- Trace for the C3 witness: edit away from the loaded content and back, so
the editing window is active while the session is clean. -/
def c3CleanTrace : List FWEvent :=
  [FWEvent.hostUpdate "base" "p", FWEvent.updateContent "x",
   FWEvent.updateContent "base"]

theorem no_conflict_while_editing_clean_witness :
    (∀ r e l, FWEffect.conflictDetected r e l ∉
        (fwStep (fwRun c3CleanTrace) (FWEvent.hostUpdate "ext" "p")).2) ∧
    (fwStep (fwRun c3CleanTrace) (FWEvent.hostUpdate "ext" "p")).1.data
        = (fwRun c3CleanTrace).data ∧
    ("ext" ≠ (fwRun c3CleanTrace).lastWebviewSaveRef → "ext" ≠ (fwRun c3CleanTrace).data →
      (fwStep (fwRun c3CleanTrace) (FWEvent.hostUpdate "ext" "p")).1.currentConflict =
        some ⟨ConflictRes.noneRes, "ext", (fwRun c3CleanTrace).data⟩) :=
  no_conflict_while_editing_clean (fwRun c3CleanTrace) "ext" "p"
    (by decide) (by decide) (by decide) (by decide) (by decide)

/-- Trace for the C7 counterexample: initial load "a", user edit to "abc",
then an external change "xyz" while dirty, producing a pending conflict. -/
def c7Trace : List FWEvent :=
  [FWEvent.hostUpdate "a" "p", FWEvent.updateContent "abc",
   FWEvent.hostUpdate "xyz" "p"]

/-- C7 counterexample: resolving the pending conflict with keep-local leaves
the buffer at "abc" and the session dirty, but the complete effect list of
the step is just the state-change callback: no autosave is scheduled and no
save request is sent, so no save is rescheduled. -/
theorem keepLocal_does_not_reschedule_save :
    (fwRun c7Trace).currentConflict = some ⟨ConflictRes.external, "xyz", "abc"⟩ ∧
    (fwStep (fwRun c7Trace) (FWEvent.resolveConflict ConflictAction.keepLocal)).1.data = "abc" ∧
    (fwStep (fwRun c7Trace) (FWEvent.resolveConflict ConflictAction.keepLocal)).1.hasUnsavedChanges
        = true ∧
    (fwStep (fwRun c7Trace) (FWEvent.resolveConflict ConflictAction.keepLocal)).2
        = [FWEffect.stateChange] := by
  decide

/-- C7 amended: resolving a pending conflict with keep-local returns the
session to the dirty state with the buffer set to the conflict's local
content and the dirty flag recomputed against the last saved content, but no
save is rescheduled: the step's only effect is the state-change callback, so
the next autosave requires a further user edit. -/
theorem keepLocal_returns_dirty_without_save (s : FWState) (cc : ConflictState)
    (h : s.currentConflict = some cc) :
    (fwStep s (FWEvent.resolveConflict ConflictAction.keepLocal)).1.data = cc.localContent ∧
    (fwStep s (FWEvent.resolveConflict ConflictAction.keepLocal)).1.lastSavedContent
        = s.lastSavedContent ∧
    (fwStep s (FWEvent.resolveConflict ConflictAction.keepLocal)).1.hasUnsavedChanges
        = decide (cc.localContent ≠ s.lastSavedContentRef) ∧
    (fwStep s (FWEvent.resolveConflict ConflictAction.keepLocal)).1.conflictResolution
        = ConflictRes.noneRes ∧
    (fwStep s (FWEvent.resolveConflict ConflictAction.keepLocal)).1.currentConflict = none ∧
    (fwStep s (FWEvent.resolveConflict ConflictAction.keepLocal)).2 = [FWEffect.stateChange] := by
  simp [fwStep, resolveConflictStep, h, handleConflictResolved]

theorem keepLocal_returns_dirty_without_save_witness :
    (fwStep (fwRun c7Trace) (FWEvent.resolveConflict ConflictAction.keepLocal)).1.data = "abc" ∧
    (fwStep (fwRun c7Trace) (FWEvent.resolveConflict ConflictAction.keepLocal)).1.lastSavedContent
        = (fwRun c7Trace).lastSavedContent ∧
    (fwStep (fwRun c7Trace) (FWEvent.resolveConflict ConflictAction.keepLocal)).1.hasUnsavedChanges
        = decide (("abc" : String) ≠ (fwRun c7Trace).lastSavedContentRef) ∧
    (fwStep (fwRun c7Trace) (FWEvent.resolveConflict ConflictAction.keepLocal)).1.conflictResolution
        = ConflictRes.noneRes ∧
    (fwStep (fwRun c7Trace) (FWEvent.resolveConflict ConflictAction.keepLocal)).1.currentConflict
        = none ∧
    (fwStep (fwRun c7Trace) (FWEvent.resolveConflict ConflictAction.keepLocal)).2
        = [FWEffect.stateChange] :=
  keepLocal_returns_dirty_without_save (fwRun c7Trace)
    ⟨ConflictRes.external, "xyz", "abc"⟩ (by decide)

/-- Atoms of the regular expressions produced by the watcher's glob
conversion: the JS dot (any character except newline), a literal character,
and bracket classes, possibly negated. -/
inductive RAtom where
  | dot
  | lit (c : Char)
  | negClass (cs : List Char)
  | posClass (cs : List Char)
deriving DecidableEq

/-- One regex atom together with whether it carries a Kleene star. -/
abbrev RItem := RAtom × Bool

/-- Reads the characters of a bracket class up to the closing bracket,
returning the class and the remaining input. -/
def parseClassChars : List Char → List Char × List Char
  | [] => ([], [])
  | ']' :: rest => ([], rest)
  | c :: rest =>
    let r := parseClassChars rest
    (c :: r.1, r.2)

/-- Attaches a following Kleene star to an atom when present. -/
def withStar (a : RAtom) (rest : List Char) : RItem × List Char :=
  match rest with
  | '*' :: r => ((a, true), r)
  | _ => ((a, false), rest)

/-- Fuel-indexed parser for the regex fragment that the glob conversion in
HotReloadWatcher.shouldIgnore produces (literals, dot, bracket classes,
stars); each step consumes at least one character, so the input length is
sufficient fuel. -/
def parseRegexAux : Nat → List Char → List RItem
  | 0, _ => []
  | _ + 1, [] => []
  | fuel + 1, '[' :: rest =>
    let body :=
      match rest with
      | '^' :: rest2 =>
        let p := parseClassChars rest2
        (RAtom.negClass p.1, p.2)
      | _ =>
        let p := parseClassChars rest
        (RAtom.posClass p.1, p.2)
    let w := withStar body.1 body.2
    w.1 :: parseRegexAux fuel w.2
  | fuel + 1, '.' :: rest =>
    let w := withStar RAtom.dot rest
    w.1 :: parseRegexAux fuel w.2
  | fuel + 1, c :: rest =>
    let w := withStar (RAtom.lit c) rest
    w.1 :: parseRegexAux fuel w.2

def parseRegex (pattern : String) : List RItem :=
  parseRegexAux pattern.length pattern.data

/-- Whether one regex atom matches one character, with JavaScript semantics:
dot excludes the newline, a negated class matches every character not
listed (newline included). -/
def matchAtom (a : RAtom) (c : Char) : Bool :=
  match a with
  | RAtom.dot => decide (c ≠ '\n')
  | RAtom.lit d => decide (c = d)
  | RAtom.negClass cs => !(cs.contains c)
  | RAtom.posClass cs => cs.contains c

/-- Backtracking matcher: does some prefix of the input match the item
list? -/
def matchesFrom : List RItem → List Char → Bool
  | [], _ => true
  | (_, false) :: _, [] => false
  | (a, false) :: rest, c :: cs => matchAtom a c && matchesFrom rest cs
  | (_, true) :: rest, [] => matchesFrom rest []
  | (a, true) :: rest, c :: cs =>
    matchesFrom rest (c :: cs) || (matchAtom a c && matchesFrom ((a, true) :: rest) cs)
termination_by items l => (l.length, items.length)

/-- RegExp.prototype.test is an unanchored search: the items may match
starting at any position of the input. -/
def searchFrom (items : List RItem) : List Char → Bool
  | [] => matchesFrom items []
  | c :: cs => matchesFrom items (c :: cs) || searchFrom items cs

def regexTest (pattern s : String) : Bool :=
  searchFrom (parseRegex pattern) s.data

/-- Whether the first list is an initial run of the second. -/
def listStartsWith : List Char → List Char → Bool
  | [], _ => true
  | _ :: _, [] => false
  | p :: ps, c :: cs => decide (p = c) && listStartsWith ps cs

/-- Fuel-indexed worker for global substring replacement, scanning left to
right and never rescanning replacement text, exactly as a JavaScript global
regex replace of a literal pattern does.  Each step consumes at least one
input character, so the input length is sufficient fuel. -/
def replaceAllAux (pat rep : List Char) : Nat → List Char → List Char
  | 0, l => l
  | _ + 1, [] => []
  | fuel + 1, c :: cs =>
    if listStartsWith pat (c :: cs) then
      rep ++ replaceAllAux pat rep fuel (List.drop pat.length (c :: cs))
    else
      c :: replaceAllAux pat rep fuel cs

/-- Global replacement of a literal pattern, on character lists. -/
def replaceList (l pat rep : List Char) : List Char :=
  if pat = [] then l else replaceAllAux pat rep l.length l

/-- The glob-to-regex conversion from HotReloadWatcher.shouldIgnore: three
global replacements applied in order.  Note that the second replacement also
rewrites the star inside the ".*" produced by the first. -/
def globToRegex (pattern : String) : String :=
  ⟨replaceList
      (replaceList
        (replaceList pattern.data ['*', '*'] ['.', '*'])
        ['*'] ['[', '^', '/', ']', '*'])
      ['?'] ['.']⟩

/-- Ignore-pattern matching as the watcher performs it: convert the glob and
test the path against the resulting regex. -/
def globTest (pattern path : String) : Bool :=
  regexTest (globToRegex pattern) path

/-- State of the host-side HotReloadWatcher: the internal-write tag set, the
keys of the live debounce timers, and the disposed flag. -/
structure HWState where
  internalWrites : List String
  debounceKeys : List String
  isDisposed : Bool
deriving DecidableEq

def initHW : HWState :=
  { internalWrites := [], debounceKeys := [], isDisposed := false }

/-- HotReloadWatcher.flagInternalWrite: adds the path to the tag set (a JS
Set, so adding an existing member is a no-op). -/
def flagInternalWrite (s : HWState) (path : String) : HWState :=
  if path ∈ s.internalWrites then s
  else { s with internalWrites := path :: s.internalWrites }

/-- The 5-second timeout installed by flagInternalWrite firing: the only
place where a tag is removed. -/
def expireInternalWrite (s : HWState) (path : String) : HWState :=
  { s with internalWrites := s.internalWrites.erase path }

/-- HotReloadWatcher.shouldIgnore: an internal-write tag suppresses the
event (without modifying the tag set); otherwise the ignore globs are
tested. -/
def shouldIgnore (s : HWState) (path : String) (ignored : List String) : Bool :=
  if path ∈ s.internalWrites then true
  else ignored.any (fun pat => globTest pat path)

/-- HotReloadWatcher.handleFileEvent: drops the event when disposed or
ignored, otherwise resets the debounce timer for the (type, path) key.  The
returned flag is true when the event was accepted into the debouncer. -/
def handleFileEvent (s : HWState) (type path : String) (ignored : List String) :
    HWState × Bool :=
  if s.isDisposed then (s, false)
  else if shouldIgnore s path ignored then (s, false)
  else
    let key := type ++ ":" ++ path
    ({ s with debounceKeys := key :: s.debounceKeys.erase key }, true)

/-- C2 counterexample: after tagging path "p", a first raw event on "p" is
suppressed but the tag is still present afterwards, and a second event on
"p" (still before the 5-second expiry) is suppressed as well — the tag is
not consumed by the first event. -/
theorem internal_write_tag_not_consumed :
    (handleFileEvent (flagInternalWrite initHW "p") "change" "p" []).2 = false ∧
    (handleFileEvent (flagInternalWrite initHW "p") "change" "p" []).1.internalWrites = ["p"] ∧
    (handleFileEvent
        (handleFileEvent (flagInternalWrite initHW "p") "change" "p" []).1
        "change" "p" []).2 = false := by
  decide

/-- C2 amended: an internal-write tag is not consumed by event processing:
every raw event on a tagged path is dropped and leaves the watcher state
(tag set included) unchanged, so all events on that path are suppressed
until the 5-second expiry removes the tag. -/
theorem tagged_path_event_suppressed_state_unchanged (s : HWState) (type path : String)
    (ignored : List String) (h : path ∈ s.internalWrites) :
    handleFileEvent s type path ignored = (s, false) := by
  simp [handleFileEvent, shouldIgnore, h]

theorem tagged_path_event_suppressed_state_unchanged_witness :
    handleFileEvent (flagInternalWrite initHW "q") "create" "q" ["**/dist/**"]
      = (flagInternalWrite initHW "q", false) :=
  tagged_path_event_suppressed_state_unchanged (flagInternalWrite initHW "q")
    "create" "q" ["**/dist/**"] (by decide)

/-- Tokens of the glob language as the specification describes it. -/
inductive GTok where
  | starStar
  | star
  | qmark
  | lit (c : Char)
deriving DecidableEq

def globToks : List Char → List GTok
  | [] => []
  | '*' :: '*' :: rest => GTok.starStar :: globToks rest
  | '*' :: rest => GTok.star :: globToks rest
  | '?' :: rest => GTok.qmark :: globToks rest
  | c :: rest => GTok.lit c :: globToks rest

def specGlobMatchAux : List GTok → List Char → Bool
  | [], [] => true
  | [], _ :: _ => false
  | GTok.lit c :: ts, d :: ds => decide (c = d) && specGlobMatchAux ts ds
  | GTok.lit _ :: _, [] => false
  | GTok.qmark :: ts, _ :: ds => specGlobMatchAux ts ds
  | GTok.qmark :: _, [] => false
  | GTok.star :: ts, ds =>
    specGlobMatchAux ts ds ||
      (match ds with
       | d :: ds2 => decide (d ≠ '/') && specGlobMatchAux (GTok.star :: ts) ds2
       | [] => false)
  | GTok.starStar :: ts, ds =>
    specGlobMatchAux ts ds ||
      (match ds with
       | _ :: ds2 => specGlobMatchAux (GTok.starStar :: ts) ds2
       | [] => false)
termination_by ts ds => (ds.length, ts.length)

/-- Modelled from the spec: whole-path glob matching where a double star
matches any number of path segments (including zero), a star matches any
character sequence without a path separator, and a question mark matches
exactly one character. -/
def specGlobMatch (pattern path : String) : Bool :=
  specGlobMatchAux (globToks pattern.data) path.data

theorem parseRegex_of_star : parseRegex (globToRegex "*") = [(RAtom.negClass ['/'], true)] := by
  decide

theorem parseRegex_of_qmark : parseRegex (globToRegex "?") = [(RAtom.dot, false)] := by
  decide

theorem parseRegex_of_starStar :
    parseRegex (globToRegex "**") = [(RAtom.dot, false), (RAtom.negClass ['/'], true)] := by
  decide

/-- C6 counterexample: under the stated glob semantics the pattern "?"
matches exactly one character, so it does not match the two-character path
"ab"; the watcher's matching nevertheless accepts it (the conversion yields
the regex ".", and the test is an unanchored substring search). -/
theorem glob_qmark_two_chars_counterexample :
    specGlobMatch "?" "ab" = false ∧ globTest "?" "ab" = true := by
  constructor
  · show specGlobMatchAux (globToks ("?" : String).data) ("ab" : String).data = false
    have h1 : globToks ("?" : String).data = [GTok.qmark] := rfl
    rw [h1]
    simp [specGlobMatchAux]
  · show searchFrom (parseRegex (globToRegex "?")) ("ab" : String).data = true
    rw [parseRegex_of_qmark]
    have h2 : ("ab" : String).data = ['a', 'b'] := rfl
    rw [h2]
    simp [searchFrom, matchesFrom, matchAtom]

theorem matchesFrom_negSlashStar (l : List Char) :
    matchesFrom [(RAtom.negClass ['/'], true)] l = true := by
  cases l <;> simp [matchesFrom]

theorem searchFrom_negSlashStar (l : List Char) :
    searchFrom [(RAtom.negClass ['/'], true)] l = true := by
  cases l <;> simp [searchFrom, matchesFrom, matchesFrom_negSlashStar]

theorem searchFrom_dot (l : List Char) :
    searchFrom [(RAtom.dot, false)] l = l.any (fun c => decide (c ≠ '\n')) := by
  induction l with
  | nil => simp [searchFrom, matchesFrom]
  | cons c cs ih => simp [searchFrom, matchesFrom, matchAtom, ih]

theorem searchFrom_dot_negSlashStar (l : List Char) :
    searchFrom [(RAtom.dot, false), (RAtom.negClass ['/'], true)] l
      = l.any (fun c => decide (c ≠ '\n')) := by
  induction l with
  | nil => simp [searchFrom, matchesFrom]
  | cons c cs ih =>
    simp [searchFrom, matchesFrom, matchAtom, matchesFrom_negSlashStar, ih]

/-- C6 amended: the watcher's ignore matching does not implement the stated
glob semantics.  Because the conversion is three successive global string
replacements (so the star inside the ".*" produced for a double star is
itself rewritten) and the regex test is an unanchored search, the pattern
"*" matches every path, and the patterns "?" and "**" each match exactly
those paths containing at least one non-newline character. -/
theorem watcher_glob_matching_behavior (path : String) :
    globTest "*" path = true ∧
    globTest "?" path = path.data.any (fun c => decide (c ≠ '\n')) ∧
    globTest "**" path = path.data.any (fun c => decide (c ≠ '\n')) := by
  refine ⟨?_, ?_, ?_⟩
  · show regexTest (globToRegex "*") path = true
    unfold regexTest
    rw [parseRegex_of_star, searchFrom_negSlashStar]
  · show regexTest (globToRegex "?") path = _
    unfold regexTest
    rw [parseRegex_of_qmark, searchFrom_dot]
  · show regexTest (globToRegex "**") path = _
    unfold regexTest
    rw [parseRegex_of_starStar, searchFrom_dot_negSlashStar]

/-- What a scheduled autosave promise eventually receives: a resolution
carrying a result, or a rejection carrying an Error message. -/
inductive PromiseOutcome where
  | resolvedOutcome (success : Bool)
  | rejectedErr (message : String)
deriving DecidableEq

/-- Pending operations of the archive AutosaveManager, keyed by path. -/
structure AMState where
  pendingOperations : List (String × String)
deriving DecidableEq

/-- AutosaveManager.autosave (archive/sdk-original): scheduling cancels any
existing pending operation for the path and rejects its promise with an
Error, then stores the new operation.  Returns the new state and the outcome
delivered to the superseded promise, if one existed. -/
def amSchedule (s : AMState) (path content : String) : AMState × Option PromiseOutcome :=
  let prior := s.pendingOperations.lookup path
  let outcome := prior.map
    (fun _ => PromiseOutcome.rejectedErr "Autosave cancelled due to newer operation")
  ({ pendingOperations :=
      (path, content) :: s.pendingOperations.filter (fun kv => decide (kv.1 ≠ path)) },
   outcome)

/-- Pending requests of the WebAutosaveManager, keyed by path. -/
structure WebAMState where
  pendingRequests : List (String × String)
deriving DecidableEq

/-- WebAutosaveManager.autosave: identical supersession behavior with its own
rejection message. -/
def webAmSchedule (t : WebAMState) (path content : String) :
    WebAMState × Option PromiseOutcome :=
  let prior := t.pendingRequests.lookup path
  let outcome := prior.map
    (fun _ => PromiseOutcome.rejectedErr "Autosave cancelled due to newer request")
  ({ pendingRequests :=
      (path, content) :: t.pendingRequests.filter (fun kv => decide (kv.1 ≠ path)) },
   outcome)

/-- C4 counterexample: scheduling a second autosave for the same path makes
the first submission's future reject with an Error (in both managers), not
resolve with a Superseded outcome. -/
theorem superseded_promise_rejects :
    (amSchedule (amSchedule ⟨[]⟩ "p" "a").1 "p" "b").2
        = some (PromiseOutcome.rejectedErr "Autosave cancelled due to newer operation") ∧
    (webAmSchedule (webAmSchedule ⟨[]⟩ "p" "a").1 "p" "b").2
        = some (PromiseOutcome.rejectedErr "Autosave cancelled due to newer request") := by
  decide

/-- C4 amended: scheduling a new autosave while a submission is pending for
the same path does supersede it (the new content replaces the old), but the
superseded future is rejected with the Error "Autosave cancelled due to
newer operation" (web manager: "... newer request"), rather than resolving
with a Superseded outcome. -/
theorem schedule_supersedes_and_rejects_prior (s : AMState) (t : WebAMState)
    (path c : String)
    (hs : (s.pendingOperations.lookup path).isSome = true)
    (ht : (t.pendingRequests.lookup path).isSome = true) :
    (amSchedule s path c).2
        = some (PromiseOutcome.rejectedErr "Autosave cancelled due to newer operation") ∧
    (amSchedule s path c).1.pendingOperations.lookup path = some c ∧
    (webAmSchedule t path c).2
        = some (PromiseOutcome.rejectedErr "Autosave cancelled due to newer request") ∧
    (webAmSchedule t path c).1.pendingRequests.lookup path = some c := by
  obtain ⟨v, hv⟩ := Option.isSome_iff_exists.mp hs
  obtain ⟨w, hw⟩ := Option.isSome_iff_exists.mp ht
  refine ⟨?_, ?_, ?_, ?_⟩ <;> simp [amSchedule, webAmSchedule, hv, hw, List.lookup]

theorem schedule_supersedes_and_rejects_prior_witness :
    (amSchedule ⟨[("p", "a")]⟩ "p" "b").2
        = some (PromiseOutcome.rejectedErr "Autosave cancelled due to newer operation") ∧
    (amSchedule ⟨[("p", "a")]⟩ "p" "b").1.pendingOperations.lookup "p" = some "b" ∧
    (webAmSchedule ⟨[("p", "a")]⟩ "p" "b").2
        = some (PromiseOutcome.rejectedErr "Autosave cancelled due to newer request") ∧
    (webAmSchedule ⟨[("p", "a")]⟩ "p" "b").1.pendingRequests.lookup "p" = some "b" :=
  schedule_supersedes_and_rejects_prior ⟨[("p", "a")]⟩ ⟨[("p", "a")]⟩ "p" "b"
    (by decide) (by decide)

/-- Filesystem side effects issued by one performSave run, in order. -/
inductive SaveAction where
  | backupWrite (backupPath content : String)
  | flagInternal (path : String)
  | writeAttempt (path content : String)
deriving DecidableEq

/-- The AutosaveResult of performSave, enriched with the ordered action
trace and the backoff delays that were awaited. -/
structure SaveResult where
  success : Bool
  bytesWritten : Option Nat
  error : Option String
  actions : List SaveAction
  delays : List Nat
deriving DecidableEq

/-- Timestamp sanitization from AutosaveManager.createBackup:
toISOString().replace of every colon and period with a dash. -/
def sanitizeTimestamp (ts : String) : String :=
  ⟨ts.data.map (fun c => if c = ':' ∨ c = '.' then '-' else c)⟩

/-- AutosaveManager.createBackup: reads the original file; only when the
read succeeds and the content string is truthy (i.e. nonempty) is a backup
written to the path {original}.backup-{sanitized timestamp}.  Returns the
backup write to perform, if any. -/
def createBackup (path ts : String) (readResult : Except String String) :
    Option (String × String) :=
  match readResult with
  | Except.ok data =>
    if data = "" then none
    else some (path ++ ".backup-" ++ sanitizeTimestamp ts, data)
  | Except.error _ => none

/-- The final failure message of performSave, mirroring the truthiness
fallback in the source: a missing or empty last error yields the generic
message. -/
def jsErrMessage (lastError : Option String) : String :=
  match lastError with
  | none => "Unknown error"
  | some m => if m = "" then "Unknown error" else m

/-- The retry loop of AutosaveManager.performSave.  The write oracle gives
each attempt's outcome; attempts run from 1 to maxRetries, each preceded by
the optional backup and the internal-write flagging, with a backoff delay of
attempt times 100 ms between failed attempts.  With no iterations the error
falls back to "Unknown error". -/
def performSaveGo (path content ts : String) (createBackupOpt flagOpt : Bool)
    (readResult : Except String String) (write : Nat → Except String Nat)
    (maxRetries attempt : Nat) (lastError : Option String)
    (acc : List SaveAction) (delays : List Nat) : SaveResult :=
  if attempt > maxRetries then
    { success := false, bytesWritten := none,
      error := some (jsErrMessage lastError), actions := acc, delays := delays }
  else
    let backupActs :=
      if createBackupOpt then
        match createBackup path ts readResult with
        | some bw => [SaveAction.backupWrite bw.1 bw.2]
        | none => []
      else []
    let flagActs := if flagOpt then [SaveAction.flagInternal path] else []
    let acts := acc ++ backupActs ++ flagActs ++ [SaveAction.writeAttempt path content]
    match write attempt with
    | Except.ok n =>
      { success := true, bytesWritten := some n, error := none,
        actions := acts, delays := delays }
    | Except.error e =>
      if _h : attempt < maxRetries then
        performSaveGo path content ts createBackupOpt flagOpt readResult write
          maxRetries (attempt + 1) (some e) acts (delays ++ [attempt * 100])
      else
        { success := false, bytesWritten := none, error := some (jsErrMessage (some e)),
          actions := acts, delays := delays }
termination_by maxRetries + 1 - attempt
decreasing_by omega

/-- AutosaveManager.performSave, entered at attempt 1 with no prior error. -/
def performSave (path content ts : String) (createBackupOpt flagOpt : Bool)
    (readResult : Except String String) (write : Nat → Except String Nat)
    (maxRetries : Nat) : SaveResult :=
  performSaveGo path content ts createBackupOpt flagOpt readResult write maxRetries 1 none [] []

/-- C8 counterexample: with maxRetries zero and a write oracle that would
fail with "disk full", performSave performs no write attempt at all and
resolves with the generic message "Unknown error" instead of the first
write's actual error. -/
theorem maxRetries_zero_skips_write :
    performSave "f" "c" "T" false true (Except.error "missing")
        (fun _ => Except.error "disk full") 0
      = { success := false, bytesWritten := none, error := some "Unknown error",
          actions := [], delays := [] } := by
  simp [performSave, performSaveGo, jsErrMessage]

/-- C8 amended: with maxRetries zero, the retry loop body never runs: no
write is attempted, no backoff delay occurs, and the result resolves
unsuccessfully with the fallback message "Unknown error" regardless of the
write oracle. -/
theorem maxRetries_zero_unknown_error (path content ts : String)
    (createBackupOpt flagOpt : Bool) (readResult : Except String String)
    (write : Nat → Except String Nat) :
    performSave path content ts createBackupOpt flagOpt readResult write 0
      = { success := false, bytesWritten := none, error := some "Unknown error",
          actions := [], delays := [] } := by
  simp [performSave, performSaveGo, jsErrMessage]

/-- C9: evaluation at the failing input.  The target path exists and is
readable but its content is empty; although the options request a backup and
the write succeeds, the action trace contains no backup write: the source
tests truthiness of the read data, and the empty string is falsy. -/
theorem backup_skipped_for_existing_empty_file :
    performSave "f" "new" "2025-01-01T00:00:00.000Z" true true (Except.ok "")
        (fun _ => Except.ok 3) 3
      = { success := true, bytesWritten := some 3, error := none,
          actions := [SaveAction.flagInternal "f", SaveAction.writeAttempt "f" "new"],
          delays := [] } := by
  simp [performSave, performSaveGo, createBackup]

end Viewerkit
